import Mathlib

/-!
# Verification of the WaveApps integration handlers

Shallow embedding of the serverless HTTP handlers of this repository:
the invoice-creation workflow (`waveQuery`, `createCustomer`, `createInvoice`,
`approveInvoice`, `sendInvoice`, and the exported handler `invoiceHandler`),
the listing handlers (`listAccountsHandler`, `listProductsHandler`,
`businessDiscoveryHandler`) and the contract-upload filename sanitization
(`sanitizeFilename`).

Conventions of the embedding:
* Environment variables are a record of strings; the empty string models an
  unset variable (falsy in JavaScript).
* `fetch` responses are explicit inputs: a `WaveResp α` carries the transport
  status (`ok`, `statusText`), the optional top-level GraphQL `errors` array of
  the body, and the parsed `data` payload of type `α`.  A JavaScript `null` or
  absent field is `Option.none`; a present array — even an empty one — is
  `Option.some`, matching JavaScript truthiness (arrays are always truthy).
* A thrown JavaScript `Error` is the `Except.error` case of `Except WError α`;
  `WError` records the message and the optional `waveErrors` side channel.
* The handlers additionally return the list of GraphQL calls whose network
  request was actually issued, so that ordering claims can be stated.
-/

set_option autoImplicit false

namespace Nicky

/-- A single structured field-level error object as returned by Wave
(`inputErrors { code message }` / top-level GraphQL `errors`). -/
structure WaveErr where
  code : Option String
  message : String
  deriving Repr, DecidableEq

/-- A thrown JavaScript `Error`: its `message` and the optional `waveErrors`
side-channel attachment (`err.waveErrors`); `none` models an `Error` on which
the property was never set. -/
structure WError where
  message : String
  waveErrors : Option (List WaveErr)
  deriving Repr, DecidableEq

/-- A transport-level response to a Wave GraphQL `fetch`: HTTP success flag
(`resp.ok`), status text, the optional top-level `errors` array of the JSON
body, and the `data` payload. -/
structure WaveResp (α : Type) where
  ok : Bool
  statusText : String
  errors : Option (List WaveErr)
  data : α
  deriving Repr, DecidableEq

/-- JavaScript `a || b` on strings: the empty string is falsy. -/
def jsOr (a b : String) : String :=
  if a = "" then b else a

/-- JavaScript `x || null` on a nullable string: both `null` and `""` collapse
to `null`. -/
def jsOrNull (v : Option String) : Option String :=
  match v with
  | some s => if s = "" then none else some s
  | none => none

/-- Model of `JSON.stringify` on one structured error object. -/
def serializeWaveErr (e : WaveErr) : String :=
  "\x7b\"code\":" ++
    (match e.code with
     | some c => "\"" ++ c ++ "\""
     | none => "null") ++
    ",\"message\":\"" ++ e.message ++ "\"\x7d"

/-- Model of `JSON.stringify` on the top-level `errors` array. -/
def serializeErrors (es : List WaveErr) : String :=
  "[" ++ String.intercalate "," (es.map serializeWaveErr) ++ "]"

/-- Embedding of `waveQuery` (identical in every handler file): requires the
API key, then fails when the transport status is not ok or the body has an
`errors` field (JavaScript truthiness: any array, including `[]`), attaching
`body.errors || null` as the side channel; otherwise returns `body.data`. -/
def waveQuery {α : Type} (apiKey : String) (resp : WaveResp α) : Except WError α :=
  if apiKey = "" then
    .error { message := "Missing WAVE_API_KEY", waveErrors := none }
  else if resp.ok = false ∨ resp.errors.isSome then
    let msg :=
      match resp.errors with
      | some es => serializeErrors es
      | none => resp.statusText
    .error { message := "Wave GraphQL error: " ++ msg, waveErrors := resp.errors }
  else
    .ok resp.data

/-- Returns `true` on the `Except.error` case: the call threw. -/
def raises {ε α : Type} : Except ε α → Bool
  | .error _ => true
  | .ok _ => false

/-- One entry of the package catalog: display name and price in decimal
currency units. -/
structure PackageInfo where
  name : String
  price : ℚ
  deriving Repr, DecidableEq

/-- Embedding of the `PACKAGE_CATALOG` object (key lookup on a fixed-key
JavaScript object). -/
def PACKAGE_CATALOG (k : String) : Option PackageInfo :=
  if k = "core" then some { name := "Core System Package", price := 5000 }
  else if k = "growth" then some { name := "Growth Accelerator Package", price := 7500 }
  else if k = "full" then some { name := "Full Ecosystem Package", price := 10000 }
  else none

deriving instance DecidableEq for Except

/-- JavaScript `Math.round`: round half toward positive infinity,
`⌊x + 1/2⌋`. -/
def jsRound (x : ℚ) : ℤ := ⌊x + 1 / 2⌋

/-- The deposit computation of `createInvoice`:
`Math.round(pkg.price * 0.5 * 100) / 100` (exact in floating point for every
catalog price, hence faithfully a rational computation). -/
def depositOf (price : ℚ) : ℚ := ((jsRound (price * (1 / 2) * 100) : ℤ) : ℚ) / 100

/-- The cents-safe two-decimal rounding rule in the words of the specification:
multiply by 100, round to the nearest integer, divide by 100.  Stated
separately from `depositOf` so the two can be compared. -/
def specRound2 (x : ℚ) : ℚ := ((jsRound (x * 100) : ℤ) : ℚ) / 100

/-- The environment-variable configuration read by the handlers; `""` models an
unset variable. -/
structure Env where
  WAVE_API_KEY : String
  WAVE_BUSINESS_ID : String
  WAVE_CURRENCY : String
  WAVE_PRODUCT_ID_CORE : String
  WAVE_PRODUCT_ID_GROWTH : String
  WAVE_PRODUCT_ID_FULL : String
  WAVE_PRODUCT_ID : String
  deriving Repr, DecidableEq

/-- JavaScript `res && res.inputErrors && res.inputErrors[0]`: the first
field-level error if the list is present and non-empty. -/
def firstInputErr : Option (List WaveErr) → Option WaveErr
  | some (e :: _) => some e
  | _ => none

/-- The `data.customerCreate` payload:
`{ didSucceed inputErrors { code message } customer { id } }`;
the `customer` object is modelled by its `id`. -/
structure CustomerCreateRes where
  didSucceed : Bool
  inputErrors : Option (List WaveErr)
  customer : Option String
  deriving Repr, DecidableEq

/-- The `Error` thrown when `customerCreate` reports an application-level
failure (`!res || !res.didSucceed || !res.customer`): the message carries the
message of the first field-level error (else "Unknown error"); the source never
sets `waveErrors` on this error. -/
def customerFailErr (cc : Option CustomerCreateRes) : WError :=
  { message :=
      "Create customer failed: " ++
        (match cc with
         | some r =>
           match firstInputErr r.inputErrors with
           | some e => e.message
           | none => "Unknown error"
         | none => "Unknown error"),
    waveErrors := none }

/-- Embedding of `createCustomer`: runs the `customerCreate` mutation through
`waveQuery` and returns the created customer id. -/
def createCustomer (apiKey : String) (resp : WaveResp (Option CustomerCreateRes)) :
    Except WError String :=
  match waveQuery apiKey resp with
  | .error e => .error e
  | .ok cc =>
    match cc with
    | some r =>
      match r.customer with
      | some cid => if r.didSucceed then .ok cid else .error (customerFailErr cc)
      | none => .error (customerFailErr cc)
    | none => .error (customerFailErr cc)

/-- The `invoice { id status viewUrl }` object of the `invoiceCreate`
payload. -/
structure InvoiceObj where
  id : String
  viewUrl : Option String
  deriving Repr, DecidableEq

/-- The `data.invoiceCreate` payload. -/
structure InvoiceCreateRes where
  didSucceed : Bool
  inputErrors : Option (List WaveErr)
  invoice : Option InvoiceObj
  deriving Repr, DecidableEq

/-- What `createInvoice` returns: `{ invoiceId, viewUrl: res.invoice.viewUrl || null }`. -/
structure CreateInvoiceOut where
  invoiceId : String
  viewUrl : Option String
  deriving Repr, DecidableEq

/-- The per-package `productIdMap[packageKey] || process.env.WAVE_PRODUCT_ID || ''`
resolution of `createInvoice`. -/
def resolveProductId (env : Env) (packageKey : String) : String :=
  let fromMap :=
    if packageKey = "core" then env.WAVE_PRODUCT_ID_CORE
    else if packageKey = "growth" then env.WAVE_PRODUCT_ID_GROWTH
    else if packageKey = "full" then env.WAVE_PRODUCT_ID_FULL
    else ""
  jsOr (jsOr fromMap env.WAVE_PRODUCT_ID) ""

/-- The application-level failure `Error` of `invoiceCreate`; again the source
never sets `waveErrors` here. -/
def invoiceFailErr (ic : Option InvoiceCreateRes) : WError :=
  { message :=
      "Create invoice failed: " ++
        (match ic with
         | some r =>
           match firstInputErr r.inputErrors with
           | some e => e.message
           | none => "Unknown error"
         | none => "Unknown error"),
    waveErrors := none }

/-- Embedding of `createInvoice`.  The catalog lookup and the product-id
resolution precede the GraphQL call; the second component records whether the
`invoiceCreate` network request was actually issued.  The invoice/due dates and
the mutation variables (which carry `String(deposit)` as the line-item unit
price) do not influence the modelled response and are not represented. -/
def createInvoice (env : Env) (packageKey contractId : String)
    (resp : WaveResp (Option InvoiceCreateRes)) :
    Except WError CreateInvoiceOut × Bool :=
  match PACKAGE_CATALOG packageKey with
  | none => (.error { message := "Unknown package key", waveErrors := none }, false)
  | some pkg =>
    let _deposit := depositOf pkg.price
    let _memo := "Contract " ++ contractId ++ " • " ++ pkg.name ++ " – Initial 50% deposit"
    let productId := resolveProductId env packageKey
    if productId = "" then
      (.error { message := "Missing WAVE_PRODUCT_ID",
                waveErrors := some [WaveErr.mk none
                  "Set WAVE_PRODUCT_ID_<PACKAGE> (CORE/GROWTH/FULL) or WAVE_PRODUCT_ID to a valid Product ID in your Wave business."] },
       false)
    else
      match waveQuery env.WAVE_API_KEY resp with
      | .error e => (.error e, env.WAVE_API_KEY ≠ "")
      | .ok ic =>
        match ic with
        | some r =>
          match r.invoice with
          | some inv =>
            if r.didSucceed then
              (.ok { invoiceId := inv.id, viewUrl := jsOrNull inv.viewUrl }, true)
            else (.error (invoiceFailErr ic), true)
          | none => (.error (invoiceFailErr ic), true)
        | none => (.error (invoiceFailErr ic), true)

/-- The `invoice { id status }` object of the `invoiceApprove` payload,
modelled by its `status`. -/
structure ApproveObj where
  status : String
  deriving Repr, DecidableEq

/-- The `data.invoiceApprove` payload. -/
structure ApproveRes where
  didSucceed : Bool
  inputErrors : Option (List WaveErr)
  invoice : Option ApproveObj
  deriving Repr, DecidableEq

/-- The application-level failure `Error` of `invoiceApprove`. -/
def approveFailErr (ar : Option ApproveRes) : WError :=
  { message :=
      "Approve invoice failed: " ++
        (match ar with
         | some r =>
           match firstInputErr r.inputErrors with
           | some e => e.message
           | none => "Unknown error"
         | none => "Unknown error"),
    waveErrors := none }

/-- Embedding of `approveInvoice`: returns the new invoice status. -/
def approveInvoice (apiKey : String) (resp : WaveResp (Option ApproveRes)) :
    Except WError String :=
  match waveQuery apiKey resp with
  | .error e => .error e
  | .ok ar =>
    match ar with
    | some r =>
      match r.invoice with
      | some inv => if r.didSucceed then .ok inv.status else .error (approveFailErr ar)
      | none => .error (approveFailErr ar)
    | none => .error (approveFailErr ar)

/-- The `invoice { id viewUrl }` object of the `invoiceSend` payload. -/
structure SendObj where
  id : String
  viewUrl : Option String
  deriving Repr, DecidableEq

/-- The `data.invoiceSend` payload. -/
structure SendRes where
  didSucceed : Bool
  inputErrors : Option (List WaveErr)
  invoice : Option SendObj
  deriving Repr, DecidableEq

/-- The application-level failure `Error` of `invoiceSend`. -/
def sendFailErr (sr : Option SendRes) : WError :=
  { message :=
      "Send invoice failed: " ++
        (match sr with
         | some r =>
           match firstInputErr r.inputErrors with
           | some e => e.message
           | none => "Unknown error"
         | none => "Unknown error"),
    waveErrors := none }

/-- Embedding of `sendInvoice`: returns `res.invoice.viewUrl || null`. -/
def sendInvoice (apiKey : String) (resp : WaveResp (Option SendRes)) :
    Except WError (Option String) :=
  match waveQuery apiKey resp with
  | .error e => .error e
  | .ok sr =>
    match sr with
    | some r =>
      match r.invoice with
      | some inv => if r.didSucceed then .ok (jsOrNull inv.viewUrl) else .error (sendFailErr sr)
      | none => .error (sendFailErr sr)
    | none => .error (sendFailErr sr)

/-- The `contractData` object of the request body. -/
structure ContractData where
  clientName : String
  clientEmail : String
  contractId : String
  deriving Repr, DecidableEq

/-- The `invoice` object of the request body. -/
structure InvoiceReq where
  packageKey : String
  deriving Repr, DecidableEq

/-- An incoming HTTP request to the invoice endpoint: method and the two body
objects (`none` models an absent field; an empty `packageKey` is falsy). -/
structure Request where
  method : String
  contractData : Option ContractData
  invoice : Option InvoiceReq
  deriving Repr, DecidableEq

/-- The external world of one invoice-endpoint request: the transport response
each of the four Wave GraphQL calls would receive, in workflow order. -/
structure World where
  customerResp : WaveResp (Option CustomerCreateRes)
  invoiceResp : WaveResp (Option InvoiceCreateRes)
  approveResp : WaveResp (Option ApproveRes)
  sendResp : WaveResp (Option SendRes)
  deriving Repr, DecidableEq

/-- The four Wave GraphQL mutations the workflow can issue. -/
inductive WaveCall where
  | customerCreate
  | invoiceCreate
  | invoiceApprove
  | invoiceSend
  deriving Repr, DecidableEq

/-- The placeholder payment link of the demo and fallback responses. -/
def DEMO_PAYMENT_URL : String := "https://link.waveapps.com/payment-demo"

/-- The response of the invoice endpoint, one constructor per `json(res, …)`
call site of the handler.  `demo` carries the fixed placeholder link and note;
`fallback` carries the fixed placeholder link plus the captured message and
`error.waveErrors || null`. -/
inductive InvoiceResponse where
  | methodNotAllowed
  | badRequest
  | demo
  | live (invoiceId : String) (paymentUrl : Option String)
  | fallback (errorMsg : String) (errorDetails : Option (List WaveErr))
  deriving Repr, DecidableEq

/-- The HTTP status of each response shape. -/
def InvoiceResponse.statusCode : InvoiceResponse → Nat
  | .methodNotAllowed => 405
  | .badRequest => 400
  | _ => 200

/-- The `paymentUrl` field of each 200 response shape. -/
def InvoiceResponse.paymentUrl : InvoiceResponse → Option String
  | .demo => some DEMO_PAYMENT_URL
  | .live _ url => url
  | .fallback _ _ => some DEMO_PAYMENT_URL
  | _ => none

/-- Returns `true` exactly on a `live`-mode response. -/
def InvoiceResponse.isLive : InvoiceResponse → Bool
  | .live _ _ => true
  | _ => false

/-- Returns `true` exactly on a `fallback`-mode response. -/
def InvoiceResponse.isFallback : InvoiceResponse → Bool
  | .fallback _ _ => true
  | _ => false

/-- Embedding of the exported invoice handler (`module.exports` of the invoice
function).  Returns the response together with the list of Wave GraphQL calls
whose network request was issued, in order. -/
def invoiceHandler (env : Env) (req : Request) (w : World) :
    InvoiceResponse × List WaveCall :=
  if req.method ≠ "POST" then (.methodNotAllowed, [])
  else
    match req.contractData, req.invoice with
    | some contractData, some invoice =>
      if invoice.packageKey = "" then (.badRequest, [])
      else
        let apiKey := jsOr env.WAVE_API_KEY ""
        let businessId := jsOr env.WAVE_BUSINESS_ID ""
        let _currency := jsOr env.WAVE_CURRENCY "USD"
        if apiKey = "" ∨ businessId = "" then (.demo, [])
        else
          match createCustomer apiKey w.customerResp with
          | .error e =>
            (.fallback (jsOr e.message "Unknown error") e.waveErrors, [.customerCreate])
          | .ok _customerId =>
            match createInvoice env invoice.packageKey contractData.contractId w.invoiceResp with
            | (.error e, fetched) =>
              (.fallback (jsOr e.message "Unknown error") e.waveErrors,
               .customerCreate :: (if fetched then [.invoiceCreate] else []))
            | (.ok out, _) =>
              let paymentUrl := jsOrNull out.viewUrl
              let _approved := approveInvoice apiKey w.approveResp
              let trace := [WaveCall.customerCreate, .invoiceCreate, .invoiceApprove, .invoiceSend]
              match sendInvoice apiKey w.sendResp with
              | .ok sentUrl =>
                let paymentUrl' :=
                  match sentUrl with
                  | some u => if u = "" then paymentUrl else some u
                  | none => paymentUrl
                (.live out.invoiceId (jsOrNull paymentUrl'), trace)
              | .error _ => (.live out.invoiceId (jsOrNull paymentUrl), trace)
    | _, _ => (.badRequest, [])

/-- The request-body validation of the handler:
`contractData` and `invoice.packageKey` must be present (and truthy). -/
def requestFieldsOk (req : Request) : Bool :=
  req.contractData.isSome &&
    (match req.invoice with
     | some inv => inv.packageKey ≠ ""
     | none => false)

/-- The configuration guard of the handler: both the API key and the business
identifier are set. -/
def waveConfigured (env : Env) : Bool :=
  env.WAVE_API_KEY ≠ "" && env.WAVE_BUSINESS_ID ≠ ""

/-- The first fatal error of the workflow, if any: `createCustomer` then
`createInvoice`; approval and sending are never fatal. -/
def workflowFatal (env : Env) (packageKey contractId : String) (w : World) :
    Option WError :=
  match createCustomer env.WAVE_API_KEY w.customerResp with
  | .error e => some e
  | .ok _ =>
    match (createInvoice env packageKey contractId w.invoiceResp).1 with
    | .error e => some e
    | .ok _ => none

/-! ## Listing and diagnostic handlers -/

/-- One `accounts.edges[].node` object of the list-accounts query
(`{ id name type subtype }`; the `type` field is named `accountType` here). -/
structure AccountNode where
  id : String
  name : String
  accountType : String
  subtype : String
  deriving Repr, DecidableEq

/-- One element of `business.accounts.edges`. -/
structure AccountsEdge where
  node : AccountNode
  deriving Repr, DecidableEq

/-- The `business` object of the list-accounts query; `accounts` is `none`
when `business.accounts` or `business.accounts.edges` is null. -/
structure BusinessAccounts where
  id : String
  name : String
  accounts : Option (List AccountsEdge)
  deriving Repr, DecidableEq

/-- The `data` payload of the list-accounts query. -/
structure AccountsData where
  business : Option BusinessAccounts
  deriving Repr, DecidableEq

/-- The response of the list-accounts handler.  Every `json(res, …)` call in
that file uses status 200, including the catch-all error path. -/
inductive ListAccountsResponse where
  | errorResp (msg : String)
  | success (businessId businessName : String) (count : Nat)
      (accounts : List AccountNode)
  deriving Repr, DecidableEq

/-- Both response shapes of the list-accounts handler are sent with 200. -/
def ListAccountsResponse.statusCode : ListAccountsResponse → Nat
  | _ => 200

/-- Embedding of the list-accounts handler.  When `data.business` is null the
source dereferences `data.business.id` and the resulting `TypeError` is caught
by the same catch-all, producing a 200 error response (its exact runtime
message is irrelevant to every claim and modelled by a fixed string). -/
def listAccountsHandler (env : Env) (resp : WaveResp AccountsData) :
    ListAccountsResponse :=
  if jsOr env.WAVE_BUSINESS_ID "" = "" then .errorResp "Missing WAVE_BUSINESS_ID"
  else
    match waveQuery env.WAVE_API_KEY resp with
    | .error e => .errorResp (jsOr e.message "Unknown error")
    | .ok d =>
      match d.business with
      | none => .errorResp "TypeError: Cannot read properties of null"
      | some b =>
        let accounts :=
          match b.accounts with
          | some edges => edges
          | none => []
        .success b.id b.name accounts.length (accounts.map (·.node))

/-- One `products.edges[].node` object (`{ id name }`); `name` may be null. -/
structure ProductNode where
  id : String
  name : Option String
  deriving Repr, DecidableEq

/-- One element of `business.products.edges`. -/
structure ProductsEdge where
  node : ProductNode
  deriving Repr, DecidableEq

/-- The `business` object of the list-products query. -/
structure BusinessProducts where
  id : String
  name : String
  products : Option (List ProductsEdge)
  deriving Repr, DecidableEq

/-- The `data` payload of the list-products query. -/
structure ProductsData where
  business : Option BusinessProducts
  deriving Repr, DecidableEq

/-- The response of the list-products handler; every `json(res, …)` call in
that handler uses status 200. -/
inductive ListProductsResponse where
  | errorResp (msg : String)
  | success (businessId businessName : String) (count : Nat)
      (products : List ProductNode)
  deriving Repr, DecidableEq

/-- Both response shapes of the list-products handler are sent with 200. -/
def ListProductsResponse.statusCode : ListProductsResponse → Nat
  | _ => 200

/-- JavaScript `String.prototype.toLowerCase` on the ASCII range. -/
def toLowerStr (s : String) : String := String.mk (s.data.map Char.toLower)

/-- Tests whether `sub` occurs contiguously at the start of `hay`. -/
def charsStartWith : List Char → List Char → Bool
  | _, [] => true
  | [], _ :: _ => false
  | h :: hs, n :: ns => h = n && charsStartWith hs ns

/-- Tests whether `sub` occurs contiguously somewhere in `hay` (JavaScript
`String.prototype.includes`). -/
def charsContain (hay sub : List Char) : Bool :=
  match hay with
  | [] => sub.isEmpty
  | _ :: t => charsStartWith hay sub || charsContain t sub

/-- JavaScript `hay.includes(sub)`. -/
def jsIncludes (hay sub : String) : Bool := charsContain hay.data sub.data

/-- Embedding of the list-products handler; `q` is the raw optional `?q=`
query parameter (lowercased by the source before use, and falsy when empty). -/
def listProductsHandler (env : Env) (q : Option String)
    (resp : WaveResp ProductsData) : ListProductsResponse :=
  if jsOr env.WAVE_BUSINESS_ID "" = "" then .errorResp "Missing WAVE_BUSINESS_ID"
  else
    match waveQuery env.WAVE_API_KEY resp with
    | .error e => .errorResp (jsOr e.message "Unknown error")
    | .ok d =>
      match d.business with
      | none => .errorResp "TypeError: Cannot read properties of null"
      | some b =>
        let edges :=
          match b.products with
          | some es => es
          | none => []
        let all := edges.map (·.node)
        let qLower :=
          match q with
          | some qs => if qs = "" then "" else toLowerStr qs
          | none => ""
        let filtered :=
          if qLower = "" then all
          else all.filter fun p =>
            jsIncludes (toLowerStr (match p.name with | some n => n | none => "")) qLower
        .success b.id b.name filtered.length filtered

/-- The flat product list a `ProductsData` payload denotes (edges mapped to
their nodes, empty when `business` or `products` is null). -/
def productNodes (d : ProductsData) : List ProductNode :=
  match d.business with
  | some b =>
    let edges : List ProductsEdge :=
      match b.products with
      | some es => es
      | none => []
    edges.map (·.node)
  | none => []

/-- The name of a product contains `q` as a case-insensitive substring (the filter
predicate of the list-products handler, with the lowercasing of both sides
made explicit). -/
def nameMatchesCI (q : String) (p : ProductNode) : Bool :=
  jsIncludes (toLowerStr (match p.name with | some n => n | none => "")) (toLowerStr q)

/-- One `businesses.edges[].node` object of the business-discovery query. -/
structure BusinessNode where
  id : String
  name : String
  isClassicAccounting : Bool
  isClassicInvoicing : Bool
  deriving Repr, DecidableEq

/-- One element of `businesses.edges`. -/
structure BusinessesEdge where
  node : BusinessNode
  deriving Repr, DecidableEq

/-- The `data` payload of the business-discovery query; `businesses` is `none`
when `data.businesses` (or its `edges`) is null. -/
structure BusinessesData where
  businesses : Option (List BusinessesEdge)
  deriving Repr, DecidableEq

/-- The response of the business-discovery handler: success is sent with 200,
but its catch-all sends `json(res, 500, { error: error.message })`. -/
inductive DiscoveryResponse where
  | errorResp (msg : String)
  | success (businesses : List BusinessNode)
  deriving Repr, DecidableEq

/-- The HTTP status of each business-discovery response shape: the error path
of the source uses 500, unlike the other two listing handlers. -/
def DiscoveryResponse.statusCode : DiscoveryResponse → Nat
  | .errorResp _ => 500
  | .success _ => 200

/-- Returns `true` exactly on the error response of the discovery handler. -/
def DiscoveryResponse.isError : DiscoveryResponse → Bool
  | .errorResp _ => true
  | .success _ => false

/-- Embedding of the business-discovery handler (`getBusinesses` plus the
exported handler). -/
def businessDiscoveryHandler (env : Env) (resp : WaveResp BusinessesData) :
    DiscoveryResponse :=
  match waveQuery env.WAVE_API_KEY resp with
  | .error e => .errorResp e.message
  | .ok d =>
    match d.businesses with
    | none => .errorResp "TypeError: Cannot read properties of null"
    | some edges => .success (edges.map (·.node))

/-! ## Contract-upload filename sanitization -/

/-- The allowed filename character class of the upload handler:
`[a-zA-Z0-9._-]`. -/
def allowedFilenameChar (c : Char) : Bool :=
  (decide ('a' ≤ c) && decide (c ≤ 'z')) ||
  (decide ('A' ≤ c) && decide (c ≤ 'Z')) ||
  (decide ('0' ≤ c) && decide (c ≤ '9')) ||
  c = '.' || c = '_' || c = '-'

/-- Embedding of the replace call with pattern [^a-zA-Z0-9._-]: every character outside the
allowed set becomes an underscore. -/
def sanitizeFilename (s : String) : String :=
  String.mk (s.data.map fun c => if allowedFilenameChar c then c else '_')

/-- The storage path `contracts/<sanitized filename>` of the upload handler. -/
def contractStoragePath (filename : String) : String :=
  "contracts/" ++ sanitizeFilename filename

/-! ## Concrete fixtures used by witnesses and counterexamples -/

/-- A fully configured environment. -/
def envConfigured : Env := ⟨"key-1", "biz-1", "", "prod-core", "", "", ""⟩

/-- An environment with nothing configured. -/
def envUnconfigured : Env := ⟨"", "", "", "", "", "", ""⟩

/-- A concrete `contractData` object. -/
def cdAlice : ContractData := ⟨"Alice", "alice@example.com", "c-42"⟩

/-- A well-formed POST request for the `core` package. -/
def reqPost : Request := ⟨"POST", some cdAlice, some ⟨"core"⟩⟩

/-- A well-formed POST request with a package key outside the catalog. -/
def reqPostUnknown : Request := ⟨"POST", some cdAlice, some ⟨"platinum"⟩⟩

/-- A GET request with a well-formed body. -/
def reqGet : Request := ⟨"GET", some cdAlice, some ⟨"core"⟩⟩

/-- A POST request with an empty body. -/
def reqNoBody : Request := ⟨"POST", none, none⟩

/-- A successful `customerCreate` response. -/
def customerOkResp : WaveResp (Option CustomerCreateRes) :=
  ⟨true, "OK", none, some ⟨true, none, some "cust-1"⟩⟩

/-- A 2xx `customerCreate` response whose operation failed with field-level
input errors. -/
def customerAppFailResp : WaveResp (Option CustomerCreateRes) :=
  ⟨true, "OK", none, some ⟨false, some [⟨some "INVALID", "email taken"⟩], none⟩⟩

/-- A transport-failed `customerCreate` response carrying GraphQL errors. -/
def customerTransportFailResp : WaveResp (Option CustomerCreateRes) :=
  ⟨false, "Bad Gateway", some [⟨some "AUTH", "bad token"⟩], none⟩

/-- A successful `invoiceCreate` response. -/
def invoiceOkResp : WaveResp (Option InvoiceCreateRes) :=
  ⟨true, "OK", none, some ⟨true, none, some ⟨"inv-1", some "https://wave.example/view"⟩⟩⟩

/-- A successful `invoiceApprove` response. -/
def approveOkResp : WaveResp (Option ApproveRes) :=
  ⟨true, "OK", none, some ⟨true, none, some ⟨"APPROVED"⟩⟩⟩

/-- A transport-failed `invoiceApprove` response. -/
def approveFailResp : WaveResp (Option ApproveRes) := ⟨false, "Server Error", none, none⟩

/-- A successful `invoiceSend` response carrying a fresh view URL. -/
def sendOkResp : WaveResp (Option SendRes) :=
  ⟨true, "OK", none, some ⟨true, none, some ⟨"inv-1", some "https://wave.example/sent"⟩⟩⟩

/-- Every external call succeeds. -/
def worldHappy : World := ⟨customerOkResp, invoiceOkResp, approveOkResp, sendOkResp⟩

/-- Only the approval step fails. -/
def worldApproveFails : World := ⟨customerOkResp, invoiceOkResp, approveFailResp, sendOkResp⟩

/-- Customer creation reports an application-level failure. -/
def worldCustomerAppFails : World :=
  ⟨customerAppFailResp, invoiceOkResp, approveOkResp, sendOkResp⟩

/-- Customer creation fails at the transport level. -/
def worldCustomerTransportFails : World :=
  ⟨customerTransportFailResp, invoiceOkResp, approveOkResp, sendOkResp⟩

/-- A transport-failed `invoiceCreate` response carrying GraphQL errors. -/
def invoiceTransportFailResp : WaveResp (Option InvoiceCreateRes) :=
  ⟨false, "Bad Gateway", some [⟨some "AUTH", "bad token"⟩], none⟩

/-- A 2xx `invoiceCreate` response whose operation failed with field-level
input errors. -/
def invoiceAppFailResp : WaveResp (Option InvoiceCreateRes) :=
  ⟨true, "OK", none, some ⟨false, some [⟨some "PRICE", "bad unit price"⟩], none⟩⟩

/-- Customer creation succeeds; invoice creation fails at the transport
level. -/
def worldInvoiceTransportFails : World :=
  ⟨customerOkResp, invoiceTransportFailResp, approveOkResp, sendOkResp⟩

/-- Customer creation succeeds; invoice creation reports an
application-level failure. -/
def worldInvoiceAppFails : World :=
  ⟨customerOkResp, invoiceAppFailResp, approveOkResp, sendOkResp⟩

/-- A well-formed businesses payload for the discovery handler. -/
def businessesOkResp : WaveResp BusinessesData := ⟨true, "OK", none, ⟨some []⟩⟩

/-- A well-formed accounts payload with one income account. -/
def accountsOkResp : WaveResp AccountsData :=
  ⟨true, "OK", none,
   ⟨some ⟨"biz-1", "Biz", some [⟨⟨"acc-1", "Sales", "INCOME", "INCOME"⟩⟩]⟩⟩⟩

/-- A well-formed products payload with two products. -/
def productsOkResp : WaveResp ProductsData :=
  ⟨true, "OK", none,
   ⟨some ⟨"biz-1", "Biz",
     some [⟨⟨"p-1", some "Core System Package"⟩⟩, ⟨⟨"p-2", some "Other Thing"⟩⟩]⟩⟩⟩

/-! ## General lemmas about the embedding -/

theorem jsOr_empty_right (s : String) : jsOr s "" = s := by
  unfold jsOr
  split_ifs with h
  · exact h.symm
  · rfl

theorem jsOr_of_ne (a b : String) (h : a ≠ "") : jsOr a b = a := by
  simp [jsOr, h]

theorem string_length_zero {s : String} (h : s.length = 0) : s = "" := by
  cases s with
  | mk l =>
    cases l with
    | nil => rfl
    | cons c t => simp [String.length] at h

theorem append_ne_empty_left (p m : String) (hp : p ≠ "") : p ++ m ≠ "" := by
  intro h
  apply hp
  have hlen := congrArg String.length h
  rw [String.length_append] at hlen
  simp at hlen
  exact string_length_zero hlen.1

theorem jsOrNull_idem (v : Option String) : jsOrNull (jsOrNull v) = jsOrNull v := by
  cases v with
  | none => rfl
  | some s => by_cases h : s = "" <;> simp [jsOrNull, h]

theorem jsOrNull_ne_some_empty (v : Option String) : jsOrNull v ≠ some "" := by
  cases v with
  | none => simp [jsOrNull]
  | some s => by_cases h : s = "" <;> simp [jsOrNull, h]

theorem waveQuery_ok_data {α : Type} {apiKey : String} {resp : WaveResp α} {d : α}
    (h : waveQuery apiKey resp = .ok d) : d = resp.data := by
  unfold waveQuery at h
  split_ifs at h
  all_goals simp_all

theorem waveQuery_errors_some {α : Type} (apiKey : String) (resp : WaveResp α)
    (es : List WaveErr) (hk : apiKey ≠ "") (he : resp.errors = some es) :
    waveQuery apiKey resp =
      .error ⟨"Wave GraphQL error: " ++ serializeErrors es, some es⟩ := by
  unfold waveQuery
  rw [if_neg hk, if_pos (by simp [he])]
  simp [he]

/-! ## C2: the deposit computation -/

/-- C2: for every package key in the catalog (core: 5000, growth: 7500,
full: 10000), the deposit computed by the invoice workflow equals exactly half
the catalog price rounded to two decimal places by the cents-safe rule
(multiply by 100, round to nearest, divide by 100) — which for these prices is
exactly half the price. -/
theorem deposit_is_half_catalog_price (k : String) (pkg : PackageInfo)
    (h : PACKAGE_CATALOG k = some pkg) :
    depositOf pkg.price = specRound2 (pkg.price / 2) ∧
    depositOf pkg.price = pkg.price / 2 ∧
    (pkg.price = 5000 ∨ pkg.price = 7500 ∨ pkg.price = 10000) := by
  unfold PACKAGE_CATALOG at h
  split_ifs at h <;> cases h <;>
    refine ⟨?_, ?_, by norm_num⟩ <;>
    norm_num [depositOf, specRound2, jsRound]

/-- Witness for C2, at the `growth` package: price 7500 yields deposit 3750. -/
theorem deposit_is_half_catalog_price_witness :
    PACKAGE_CATALOG "growth" = some ⟨"Growth Accelerator Package", 7500⟩ ∧
    depositOf 7500 = 3750 := by
  have h : PACKAGE_CATALOG "growth" = some ⟨"Growth Accelerator Package", 7500⟩ := by
    simp [PACKAGE_CATALOG]
  refine ⟨h, ?_⟩
  have h2 := (deposit_is_half_catalog_price "growth" ⟨"Growth Accelerator Package", 7500⟩ h).2.1
  norm_num at h2
  exact h2

/-! ## C4: the GraphQL call primitive (corrected) -/

/-- C4 counterexample: with the API key configured, a transport-successful
response whose body carries an *empty* `errors` array still makes `waveQuery`
raise (JavaScript arrays are truthy), refuting the claim that it raises only
for a non-successful status or a non-empty errors list. -/
theorem waveQuery_empty_errors_counterexample :
    (WaveResp.mk true "OK" (some []) (0 : Nat)).ok = true ∧
    (WaveResp.mk true "OK" (some []) (0 : Nat)).errors = some [] ∧
    raises (waveQuery "key" (WaveResp.mk true "OK" (some []) (0 : Nat))) = true ∧
    waveQuery "key" (WaveResp.mk true "OK" (some []) (0 : Nat)) =
      .error ⟨"Wave GraphQL error: []", some []⟩ := by
  decide

/-- C4 amended: with the API key configured, `waveQuery` raises iff the
transport status is not successful OR the body contains a top-level `errors`
list — even an empty one.  When it raises on a response whose body has an
`errors` list, the message embeds the serialized list and the raw list rides
along as the side-channel payload; when the body has no `errors` list the
message embeds the transport status text and the payload is empty; when it
does not raise the data payload is returned unwrapped. -/
theorem waveQuery_error_policy (apiKey : String)
    (resp resp1 resp2 resp3 : WaveResp Nat) (es : List WaveErr)
    (h : apiKey ≠ "")
    (h1 : resp1.errors = some es)
    (h2e : resp2.errors = none) (h2ok : resp2.ok = false)
    (h3ok : resp3.ok = true) (h3e : resp3.errors = none) :
    (raises (waveQuery apiKey resp) = true ↔
      (resp.ok = false ∨ resp.errors.isSome = true)) ∧
    waveQuery apiKey resp1 =
      .error ⟨"Wave GraphQL error: " ++ serializeErrors es, some es⟩ ∧
    waveQuery apiKey resp2 =
      .error ⟨"Wave GraphQL error: " ++ resp2.statusText, none⟩ ∧
    waveQuery apiKey resp3 = .ok resp3.data := by
  refine ⟨?_, ?_, ?_, ?_⟩
  · unfold waveQuery
    rw [if_neg h]
    split_ifs with hc
    · simp [raises, hc]
    · simp [raises, hc]
  · unfold waveQuery
    rw [if_neg h, if_pos (by simp [h1])]
    simp [h1]
  · unfold waveQuery
    rw [if_neg h, if_pos (by simp [h2ok])]
    simp [h2e]
  · unfold waveQuery
    rw [if_neg h, if_neg (by simp [h3ok, h3e])]

/-- Witness for the amended theorem of C4 at concrete responses. -/
theorem waveQuery_error_policy_witness :
    (raises (waveQuery "key" (WaveResp.mk true "OK" none (7 : Nat))) = true ↔
      ((WaveResp.mk true "OK" none (7 : Nat)).ok = false ∨
        (WaveResp.mk true "OK" none (7 : Nat)).errors.isSome = true)) ∧
    waveQuery "key" (WaveResp.mk true "OK" (some [⟨some "E", "boom"⟩]) (1 : Nat)) =
      .error ⟨"Wave GraphQL error: " ++ serializeErrors [⟨some "E", "boom"⟩],
              some [⟨some "E", "boom"⟩]⟩ ∧
    waveQuery "key" (WaveResp.mk false "Bad Gateway" none (2 : Nat)) =
      .error ⟨"Wave GraphQL error: " ++ (WaveResp.mk false "Bad Gateway" none (2 : Nat)).statusText, none⟩ ∧
    waveQuery "key" (WaveResp.mk true "OK" none (7 : Nat)) =
      .ok (WaveResp.mk true "OK" none (7 : Nat)).data :=
  waveQuery_error_policy "key"
    (WaveResp.mk true "OK" none 7)
    (WaveResp.mk true "OK" (some [⟨some "E", "boom"⟩]) 1)
    (WaveResp.mk false "Bad Gateway" none 2)
    (WaveResp.mk true "OK" none 7)
    [⟨some "E", "boom"⟩]
    (by decide) rfl rfl rfl rfl rfl

/-! ## C8: upload filename sanitization -/

/-- C8: every character outside the allowed set `[a-zA-Z0-9._-]` is replaced
by an underscore before the storage path is constructed; in particular every
character of the sanitized name is in the allowed set, and
`"My Contract (1).pdf"` produces the path `"contracts/My_Contract__1_.pdf"`. -/
theorem upload_filename_sanitization (f : String) :
    (sanitizeFilename f).data.all allowedFilenameChar = true ∧
    (sanitizeFilename f).data =
      f.data.map (fun c => if allowedFilenameChar c then c else '_') ∧
    sanitizeFilename "My Contract (1).pdf" = "My_Contract__1_.pdf" ∧
    contractStoragePath "My Contract (1).pdf" = "contracts/My_Contract__1_.pdf" := by
  refine ⟨?_, rfl, by decide, by decide⟩
  rw [List.all_eq_true]
  intro c hc
  have hc' : c ∈ f.data.map (fun c => if allowedFilenameChar c then c else '_') := hc
  rcases List.mem_map.mp hc' with ⟨a, _, rfl⟩
  by_cases hA : allowedFilenameChar a
  · simp [hA]
  · simp [hA]
    decide

/-! ## Scenario lemmas about the invoice handler -/

theorem requestFieldsOk_iff (req : Request) :
    requestFieldsOk req = true ↔
      ∃ cd inv, req.contractData = some cd ∧ req.invoice = some inv ∧
        inv.packageKey ≠ "" := by
  obtain ⟨m, ocd, oinv⟩ := req
  cases ocd <;> cases oinv <;> simp [requestFieldsOk]

theorem waveConfigured_spec (env : Env) :
    waveConfigured env = true ↔
      env.WAVE_API_KEY ≠ "" ∧ env.WAVE_BUSINESS_ID ≠ "" := by
  simp [waveConfigured]

theorem invoiceHandler_not_post (env : Env) (req : Request) (w : World)
    (h : req.method ≠ "POST") :
    invoiceHandler env req w = (.methodNotAllowed, []) := by
  unfold invoiceHandler
  rw [if_pos h]

theorem invoiceHandler_bad_request (env : Env) (req : Request) (w : World)
    (hm : req.method = "POST") (hf : requestFieldsOk req = false) :
    invoiceHandler env req w = (.badRequest, []) := by
  rcases hcd : req.contractData with _ | cd
  · simp [invoiceHandler, hm, hcd]
  · rcases hinv : req.invoice with _ | inv
    · simp [invoiceHandler, hm, hcd, hinv]
    · have hpk : inv.packageKey = "" := by
        simp [requestFieldsOk, hcd, hinv] at hf
        exact hf
      simp [invoiceHandler, hm, hcd, hinv, hpk]

theorem invoiceHandler_demo (env : Env) (req : Request) (w : World)
    (cd : ContractData) (inv : InvoiceReq)
    (hm : req.method = "POST") (hcd : req.contractData = some cd)
    (hinv : req.invoice = some inv) (hpk : inv.packageKey ≠ "")
    (hdemo : waveConfigured env = false) :
    invoiceHandler env req w = (.demo, []) := by
  have hor : env.WAVE_API_KEY = "" ∨ env.WAVE_BUSINESS_ID = "" := by
    by_contra hcon
    push_neg at hcon
    rw [← waveConfigured_spec] at hcon
    simp [hcon] at hdemo
  simp only [invoiceHandler, hm, hcd, hinv, jsOr_empty_right]
  simp [hpk, hor]

theorem invoiceHandler_customer_fail (env : Env) (req : Request) (w : World)
    (cd : ContractData) (inv : InvoiceReq) (e : WError)
    (hm : req.method = "POST") (hcd : req.contractData = some cd)
    (hinv : req.invoice = some inv) (hpk : inv.packageKey ≠ "")
    (hconf : waveConfigured env = true)
    (hc : createCustomer env.WAVE_API_KEY w.customerResp = .error e) :
    invoiceHandler env req w =
      (.fallback (jsOr e.message "Unknown error") e.waveErrors, [.customerCreate]) := by
  obtain ⟨hk, hb⟩ := (waveConfigured_spec env).mp hconf
  simp only [invoiceHandler, hm, hcd, hinv, jsOr_empty_right]
  simp [hpk, hk, hb, hc]

theorem invoiceHandler_invoice_fail (env : Env) (req : Request) (w : World)
    (cd : ContractData) (inv : InvoiceReq) (cid : String) (e : WError) (fetched : Bool)
    (hm : req.method = "POST") (hcd : req.contractData = some cd)
    (hinv : req.invoice = some inv) (hpk : inv.packageKey ≠ "")
    (hconf : waveConfigured env = true)
    (hc : createCustomer env.WAVE_API_KEY w.customerResp = .ok cid)
    (hi : createInvoice env inv.packageKey cd.contractId w.invoiceResp =
      (.error e, fetched)) :
    invoiceHandler env req w =
      (.fallback (jsOr e.message "Unknown error") e.waveErrors,
       .customerCreate :: (if fetched then [.invoiceCreate] else [])) := by
  obtain ⟨hk, hb⟩ := (waveConfigured_spec env).mp hconf
  simp only [invoiceHandler, hm, hcd, hinv, jsOr_empty_right]
  simp [hpk, hk, hb, hc, hi]

theorem invoiceHandler_invoice_ok (env : Env) (req : Request) (w : World)
    (cd : ContractData) (inv : InvoiceReq) (cid : String) (out : CreateInvoiceOut)
    (fetched : Bool)
    (hm : req.method = "POST") (hcd : req.contractData = some cd)
    (hinv : req.invoice = some inv) (hpk : inv.packageKey ≠ "")
    (hconf : waveConfigured env = true)
    (hc : createCustomer env.WAVE_API_KEY w.customerResp = .ok cid)
    (hi : createInvoice env inv.packageKey cd.contractId w.invoiceResp =
      (.ok out, fetched)) :
    invoiceHandler env req w =
      (.live out.invoiceId
        (match sendInvoice env.WAVE_API_KEY w.sendResp with
         | .ok (some u) =>
           if u = "" then jsOrNull (jsOrNull out.viewUrl) else jsOrNull (some u)
         | .ok none => jsOrNull (jsOrNull out.viewUrl)
         | .error _ => jsOrNull (jsOrNull out.viewUrl)),
       [.customerCreate, .invoiceCreate, .invoiceApprove, .invoiceSend]) := by
  obtain ⟨hk, hb⟩ := (waveConfigured_spec env).mp hconf
  simp only [invoiceHandler, hm, hcd, hinv, jsOr_empty_right]
  simp only [hpk, hk, hb, hc, hi]
  rcases hs : sendInvoice env.WAVE_API_KEY w.sendResp with e | u
  · simp [hk, hb, hpk, hs]
  · rcases u with _ | u
    · simp [hk, hb, hpk, hs]
    · by_cases hu : u = "" <;> simp [hk, hb, hpk, hs, hu]

theorem invoiceHandler_status_200 (env : Env) (req : Request) (w : World)
    (hm : req.method = "POST") (hf : requestFieldsOk req = true) :
    (invoiceHandler env req w).1.statusCode = 200 := by
  obtain ⟨cd, inv, hcd, hinv, hpk⟩ := (requestFieldsOk_iff req).mp hf
  by_cases hconf : waveConfigured env = true
  · rcases hc : createCustomer env.WAVE_API_KEY w.customerResp with e | cid
    · rw [invoiceHandler_customer_fail env req w cd inv e hm hcd hinv hpk hconf hc]
      rfl
    · rcases hi : createInvoice env inv.packageKey cd.contractId w.invoiceResp with ⟨r, fetched⟩
      rcases r with e | out
      · rw [invoiceHandler_invoice_fail env req w cd inv cid e fetched hm hcd hinv hpk hconf hc hi]
        rfl
      · rw [invoiceHandler_invoice_ok env req w cd inv cid out fetched hm hcd hinv hpk hconf hc hi]
        rfl
  · rw [invoiceHandler_demo env req w cd inv hm hcd hinv hpk (by simpa using hconf)]
    rfl

theorem createInvoice_ok_viewUrl (env : Env) (pk cid : String)
    (r : WaveResp (Option InvoiceCreateRes)) (out : CreateInvoiceOut) (f : Bool)
    (h : createInvoice env pk cid r = (.ok out, f)) :
    jsOrNull out.viewUrl = out.viewUrl := by
  unfold createInvoice at h
  rcases hcat : PACKAGE_CATALOG pk with _ | pkg
  · rw [hcat] at h
    simp at h
  · rw [hcat] at h
    by_cases hprod : resolveProductId env pk = ""
    · simp [hprod] at h
    · simp only [hprod, if_false, if_neg hprod] at h
      rcases hq : waveQuery env.WAVE_API_KEY r with e | ic
      · rw [hq] at h
        simp at h
      · rw [hq] at h
        rcases ic with _ | rr
        · simp at h
        · rcases hri : rr.invoice with _ | invObj
          · simp [hri] at h
          · by_cases hds : rr.didSucceed = true
            · simp [hri, hds] at h
              rw [← h.1]
              exact jsOrNull_idem _
            · simp [hri, hds] at h

theorem invoiceHandler_fatal (env : Env) (req : Request) (w : World)
    (cd : ContractData) (inv : InvoiceReq) (e : WError)
    (hm : req.method = "POST") (hcd : req.contractData = some cd)
    (hinv : req.invoice = some inv) (hpk : inv.packageKey ≠ "")
    (hconf : waveConfigured env = true)
    (hfatal : workflowFatal env inv.packageKey cd.contractId w = some e) :
    (invoiceHandler env req w).1 =
      .fallback (jsOr e.message "Unknown error") e.waveErrors := by
  unfold workflowFatal at hfatal
  rcases hc : createCustomer env.WAVE_API_KEY w.customerResp with ec | cid
  · rw [hc] at hfatal
    simp at hfatal
    subst hfatal
    rw [invoiceHandler_customer_fail env req w cd inv ec hm hcd hinv hpk hconf hc]
  · rw [hc] at hfatal
    rcases hi : createInvoice env inv.packageKey cd.contractId w.invoiceResp with ⟨r, f⟩
    rw [hi] at hfatal
    rcases r with ei | out
    · simp at hfatal
      subst hfatal
      rw [invoiceHandler_invoice_fail env req w cd inv cid ei f hm hcd hinv hpk hconf hc hi]
    · simp at hfatal

theorem invoiceHandler_live_of_no_fatal (env : Env) (req : Request) (w : World)
    (cd : ContractData) (inv : InvoiceReq)
    (hm : req.method = "POST") (hcd : req.contractData = some cd)
    (hinv : req.invoice = some inv) (hpk : inv.packageKey ≠ "")
    (hconf : waveConfigured env = true)
    (hfatal : workflowFatal env inv.packageKey cd.contractId w = none) :
    (invoiceHandler env req w).1.isLive = true := by
  unfold workflowFatal at hfatal
  rcases hc : createCustomer env.WAVE_API_KEY w.customerResp with ec | cid
  · rw [hc] at hfatal
    simp at hfatal
  · rw [hc] at hfatal
    rcases hi : createInvoice env inv.packageKey cd.contractId w.invoiceResp with ⟨r, f⟩
    rw [hi] at hfatal
    rcases r with ei | out
    · simp at hfatal
    · rw [invoiceHandler_invoice_ok env req w cd inv cid out f hm hcd hinv hpk hconf hc hi]
      rfl

/-! ## C1: the top-level failure policy of the invoice endpoint -/

/-- C1: a non-200 status occurs exactly for a non-POST method (405) or a body
missing `contractData` or `invoice.packageKey` (400); a well-formed POST with
unconfigured API key or business id yields 200 in demo mode with the fixed
placeholder link and an empty call trace; a fatal workflow failure yields 200
in fallback mode carrying the captured message and error details; otherwise
the response is 200 in live mode. -/
theorem invoice_endpoint_failure_policy
    (env : Env) (req : Request) (w : World)
    (env2 : Env) (req2 : Request) (w2 : World)
    (env3 : Env) (req3 : Request) (w3 : World)
    (env4 : Env) (req4 : Request) (w4 : World) (cd4 : ContractData) (inv4 : InvoiceReq)
    (env5 : Env) (req5 : Request) (w5 : World) (cd5 : ContractData) (inv5 : InvoiceReq)
    (e5 : WError)
    (env6 : Env) (req6 : Request) (w6 : World) (cd6 : ContractData) (inv6 : InvoiceReq)
    (hm2 : req2.method ≠ "POST")
    (hm3 : req3.method = "POST") (hf3 : requestFieldsOk req3 = false)
    (hm4 : req4.method = "POST") (hcd4 : req4.contractData = some cd4)
    (hinv4 : req4.invoice = some inv4) (hpk4 : inv4.packageKey ≠ "")
    (hconf4 : waveConfigured env4 = false)
    (hm5 : req5.method = "POST") (hcd5 : req5.contractData = some cd5)
    (hinv5 : req5.invoice = some inv5) (hpk5 : inv5.packageKey ≠ "")
    (hconf5 : waveConfigured env5 = true)
    (hfatal5 : workflowFatal env5 inv5.packageKey cd5.contractId w5 = some e5)
    (hm6 : req6.method = "POST") (hcd6 : req6.contractData = some cd6)
    (hinv6 : req6.invoice = some inv6) (hpk6 : inv6.packageKey ≠ "")
    (hconf6 : waveConfigured env6 = true)
    (hfatal6 : workflowFatal env6 inv6.packageKey cd6.contractId w6 = none) :
    ((invoiceHandler env req w).1.statusCode ≠ 200 ↔
      (req.method ≠ "POST" ∨ requestFieldsOk req = false)) ∧
    (invoiceHandler env2 req2 w2 = (.methodNotAllowed, []) ∧
      InvoiceResponse.methodNotAllowed.statusCode = 405) ∧
    (invoiceHandler env3 req3 w3 = (.badRequest, []) ∧
      InvoiceResponse.badRequest.statusCode = 400) ∧
    (invoiceHandler env4 req4 w4 = (.demo, []) ∧
      InvoiceResponse.demo.statusCode = 200 ∧
      InvoiceResponse.demo.paymentUrl = some DEMO_PAYMENT_URL) ∧
    ((invoiceHandler env5 req5 w5).1 =
        .fallback (jsOr e5.message "Unknown error") e5.waveErrors ∧
      (invoiceHandler env5 req5 w5).1.statusCode = 200) ∧
    ((invoiceHandler env6 req6 w6).1.isLive = true ∧
      (invoiceHandler env6 req6 w6).1.statusCode = 200) := by
  refine ⟨?_, ⟨invoiceHandler_not_post env2 req2 w2 hm2, rfl⟩,
    ⟨invoiceHandler_bad_request env3 req3 w3 hm3 hf3, rfl⟩,
    ⟨invoiceHandler_demo env4 req4 w4 cd4 inv4 hm4 hcd4 hinv4 hpk4 hconf4, rfl, rfl⟩,
    ?_, ?_⟩
  · by_cases hm : req.method = "POST"
    · by_cases hf : requestFieldsOk req = true
      · simp [invoiceHandler_status_200 env req w hm hf, hm, hf]
      · have hf' : requestFieldsOk req = false := by simpa using hf
        rw [invoiceHandler_bad_request env req w hm hf']
        simp [hm, hf', InvoiceResponse.statusCode]
    · rw [invoiceHandler_not_post env req w hm]
      simp [hm, InvoiceResponse.statusCode]
  · have h5 := invoiceHandler_fatal env5 req5 w5 cd5 inv5 e5 hm5 hcd5 hinv5 hpk5
      hconf5 hfatal5
    rw [h5]
    exact ⟨rfl, rfl⟩
  · have h6 := invoiceHandler_live_of_no_fatal env6 req6 w6 cd6 inv6 hm6 hcd6 hinv6
      hpk6 hconf6 hfatal6
    refine ⟨h6, ?_⟩
    revert h6
    rcases (invoiceHandler env6 req6 w6).1 with _ | _ | _ | ⟨iid, url⟩ | ⟨msg, det⟩ <;>
      intro h6 <;> simp_all [InvoiceResponse.isLive, InvoiceResponse.statusCode]

/-! ## C10: request validation precedes the demo-mode configuration check -/

/-- C10: even with the API key and business identifier unconfigured, a
non-POST request is answered 405 and a POST missing `contractData` or
`invoice.packageKey` is answered 400; demo mode is never returned for a
malformed request. -/
theorem validation_precedes_demo (env : Env) (req1 req2 : Request) (w : World)
    (_hk : env.WAVE_API_KEY = "") (_hb : env.WAVE_BUSINESS_ID = "")
    (hm1 : req1.method ≠ "POST")
    (hm2 : req2.method = "POST") (hf2 : requestFieldsOk req2 = false) :
    invoiceHandler env req1 w = (.methodNotAllowed, []) ∧
    (invoiceHandler env req1 w).1 ≠ .demo ∧
    (invoiceHandler env req1 w).1.statusCode = 405 ∧
    invoiceHandler env req2 w = (.badRequest, []) ∧
    (invoiceHandler env req2 w).1 ≠ .demo ∧
    (invoiceHandler env req2 w).1.statusCode = 400 := by
  have h1 := invoiceHandler_not_post env req1 w hm1
  have h2 := invoiceHandler_bad_request env req2 w hm2 hf2
  rw [h1, h2]
  refine ⟨rfl, by simp, rfl, rfl, by simp, rfl⟩

theorem sendInvoice_ok_normalized (apiKey : String) (resp : WaveResp (Option SendRes))
    (v : Option String) (h : sendInvoice apiKey resp = .ok v) : v ≠ some "" := by
  unfold sendInvoice at h
  rcases hq : waveQuery apiKey resp with e | sr
  · rw [hq] at h
    simp at h
  · rw [hq] at h
    rcases sr with _ | rr
    · simp at h
    · rcases hri : rr.invoice with _ | invObj
      · simp [hri] at h
      · by_cases hds : rr.didSucceed = true
        · simp [hri, hds] at h
          rw [← h]
          exact jsOrNull_ne_some_empty _
        · simp [hri, hds] at h

/-! ## C3: approval failure is non-fatal -/

/-- C3: when customer creation and invoice creation succeed but approval
fails, the workflow still attempts the send step (it appears in the call
trace) and the endpoint answers in live mode with the best available URL —
the URL of the send result when sending succeeds and returns one, otherwise
the view URL of the created invoice, otherwise null; the response is never
fallback. -/
theorem approval_failure_nonfatal (env : Env) (req : Request) (w : World)
    (cd : ContractData) (inv : InvoiceReq) (cid : String) (out : CreateInvoiceOut)
    (hm : req.method = "POST") (hcd : req.contractData = some cd)
    (hinv : req.invoice = some inv) (hpk : inv.packageKey ≠ "")
    (hconf : waveConfigured env = true)
    (hc : createCustomer env.WAVE_API_KEY w.customerResp = .ok cid)
    (hi : (createInvoice env inv.packageKey cd.contractId w.invoiceResp).1 = .ok out)
    (_ha : raises (approveInvoice env.WAVE_API_KEY w.approveResp) = true) :
    (invoiceHandler env req w).2 =
      [.customerCreate, .invoiceCreate, .invoiceApprove, .invoiceSend] ∧
    (invoiceHandler env req w).1 =
      .live out.invoiceId
        (match sendInvoice env.WAVE_API_KEY w.sendResp with
         | .ok (some u) => some u
         | .ok none => out.viewUrl
         | .error _ => out.viewUrl) ∧
    (invoiceHandler env req w).1.isFallback = false := by
  rcases hpair : createInvoice env inv.packageKey cd.contractId w.invoiceResp with ⟨r, f⟩
  rw [hpair] at hi
  simp only at hi
  subst hi
  have hv : jsOrNull out.viewUrl = out.viewUrl :=
    createInvoice_ok_viewUrl env inv.packageKey cd.contractId w.invoiceResp out f hpair
  have hmain := invoiceHandler_invoice_ok env req w cd inv cid out f hm hcd hinv hpk
    hconf hc hpair
  rw [hmain]
  refine ⟨rfl, ?_, rfl⟩
  rcases hs : sendInvoice env.WAVE_API_KEY w.sendResp with e | u
  · simp [hs, jsOrNull_idem, hv]
  · rcases u with _ | u
    · simp [hs, jsOrNull_idem, hv]
    · have hu : u ≠ "" := fun hu0 =>
        sendInvoice_ok_normalized env.WAVE_API_KEY w.sendResp (some u) hs (by rw [hu0])
      simp [hs, hu, jsOrNull, hv]

/-! ## C5: package-key validation happens after the customer call (corrected) -/

/-- C5 amended: the package key is validated inside the invoice-creation step,
*after* the customer-creation call has already been issued: for a configured
environment and a well-formed request with a key outside the catalog whose
customer creation succeeds, the workflow fails fatally with the input error
`"Unknown package key"` (fallback response), but the call trace already
contains the customer-creation call and no invoice-creation call. -/
theorem unknown_package_key_after_customer_call (env : Env) (req : Request)
    (w : World) (cd : ContractData) (inv : InvoiceReq) (cid : String)
    (hm : req.method = "POST") (hcd : req.contractData = some cd)
    (hinv : req.invoice = some inv) (hpk : inv.packageKey ≠ "")
    (hconf : waveConfigured env = true)
    (hunk : PACKAGE_CATALOG inv.packageKey = none)
    (hc : createCustomer env.WAVE_API_KEY w.customerResp = .ok cid) :
    invoiceHandler env req w =
      (.fallback "Unknown package key" none, [.customerCreate]) := by
  have hi : createInvoice env inv.packageKey cd.contractId w.invoiceResp =
      (.error ⟨"Unknown package key", none⟩, false) := by
    unfold createInvoice
    rw [hunk]
  have hmain := invoiceHandler_invoice_fail env req w cd inv cid
    ⟨"Unknown package key", none⟩ false hm hcd hinv hpk hconf hc hi
  rw [hmain]
  simp [jsOr]

/-! ## C6: which failures preserve structured error details (corrected) -/

/-- C6 amended: a *transport-level* GraphQL failure — at the customer-creation
call (`w1`) or at the invoice-creation call (`w3`) — preserves the structured
error list in the `errorDetails` field of the fallback response; an
*application-level* `customerCreate` (`w2`) or `invoiceCreate` (`w4`) failure
carrying field-level `inputErrors` surfaces only the message of the first
error in the error string, and the `errorDetails` field of the fallback
response is null. -/
theorem error_details_policy (env : Env) (req : Request) (w1 w2 w3 w4 : World)
    (cd : ContractData) (inv : InvoiceReq) (es : List WaveErr)
    (r : CustomerCreateRes) (e : WaveErr) (rest : List WaveErr)
    (cid3 cid4 : String) (es2 : List WaveErr) (pkg : PackageInfo)
    (ri : InvoiceCreateRes) (e2 : WaveErr) (rest2 : List WaveErr)
    (hm : req.method = "POST") (hcd : req.contractData = some cd)
    (hinv : req.invoice = some inv) (hpk : inv.packageKey ≠ "")
    (hconf : waveConfigured env = true)
    (h1 : w1.customerResp.errors = some es)
    (h2ok : w2.customerResp.ok = true) (h2e : w2.customerResp.errors = none)
    (h2d : w2.customerResp.data = some r) (h2s : r.didSucceed = false)
    (h2i : r.inputErrors = some (e :: rest))
    (hcat : PACKAGE_CATALOG inv.packageKey = some pkg)
    (hprod : resolveProductId env inv.packageKey ≠ "")
    (h3c : createCustomer env.WAVE_API_KEY w3.customerResp = .ok cid3)
    (h3e : w3.invoiceResp.errors = some es2)
    (h4c : createCustomer env.WAVE_API_KEY w4.customerResp = .ok cid4)
    (h4ok : w4.invoiceResp.ok = true) (h4e : w4.invoiceResp.errors = none)
    (h4d : w4.invoiceResp.data = some ri) (h4s : ri.didSucceed = false)
    (h4i : ri.inputErrors = some (e2 :: rest2)) :
    (invoiceHandler env req w1).1 =
      .fallback ("Wave GraphQL error: " ++ serializeErrors es) (some es) ∧
    (invoiceHandler env req w2).1 =
      .fallback ("Create customer failed: " ++ e.message) none ∧
    (invoiceHandler env req w3).1 =
      .fallback ("Wave GraphQL error: " ++ serializeErrors es2) (some es2) ∧
    (invoiceHandler env req w4).1 =
      .fallback ("Create invoice failed: " ++ e2.message) none := by
  obtain ⟨hk, _⟩ := (waveConfigured_spec env).mp hconf
  refine ⟨?_, ?_, ?_, ?_⟩
  · have hc : createCustomer env.WAVE_API_KEY w1.customerResp =
        .error ⟨"Wave GraphQL error: " ++ serializeErrors es, some es⟩ := by
      unfold createCustomer
      rw [waveQuery_errors_some env.WAVE_API_KEY w1.customerResp es hk h1]
    rw [invoiceHandler_customer_fail env req w1 cd inv _ hm hcd hinv hpk hconf hc]
    rw [jsOr_of_ne _ _ (append_ne_empty_left _ _ (by decide))]
  · have hc : createCustomer env.WAVE_API_KEY w2.customerResp =
        .error ⟨"Create customer failed: " ++ e.message, none⟩ := by
      unfold createCustomer waveQuery
      rw [if_neg hk, if_neg (by simp [h2ok, h2e])]
      rcases hrc : r.customer with _ | cidv <;>
        simp [h2d, hrc, h2s, customerFailErr, firstInputErr, h2i]
    rw [invoiceHandler_customer_fail env req w2 cd inv _ hm hcd hinv hpk hconf hc]
    rw [jsOr_of_ne _ _ (append_ne_empty_left _ _ (by decide))]
  · have hwq := waveQuery_errors_some env.WAVE_API_KEY w3.invoiceResp es2 hk h3e
    have h1' : (createInvoice env inv.packageKey cd.contractId w3.invoiceResp).1 =
        .error ⟨"Wave GraphQL error: " ++ serializeErrors es2, some es2⟩ := by
      unfold createInvoice
      simp [hcat, hprod, hwq]
    rcases hp : createInvoice env inv.packageKey cd.contractId w3.invoiceResp with ⟨r3, f3⟩
    rw [hp] at h1'
    simp only at h1'
    subst h1'
    rw [invoiceHandler_invoice_fail env req w3 cd inv cid3 _ f3 hm hcd hinv hpk hconf
      h3c hp]
    rw [jsOr_of_ne _ _ (append_ne_empty_left _ _ (by decide))]
  · have hwq : waveQuery env.WAVE_API_KEY w4.invoiceResp = .ok w4.invoiceResp.data := by
      unfold waveQuery
      rw [if_neg hk, if_neg (by simp [h4ok, h4e])]
    have h1' : (createInvoice env inv.packageKey cd.contractId w4.invoiceResp).1 =
        .error ⟨"Create invoice failed: " ++ e2.message, none⟩ := by
      unfold createInvoice
      rcases hri : ri.invoice with _ | invObj <;>
        simp [hcat, hprod, hwq, h4d, hri, h4s, invoiceFailErr, firstInputErr, h4i]
    rcases hp : createInvoice env inv.packageKey cd.contractId w4.invoiceResp with ⟨r4, f4⟩
    rw [hp] at h1'
    simp only at h1'
    subst h1'
    rw [invoiceHandler_invoice_fail env req w4 cd inv cid4 _ f4 hm hcd hinv hpk hconf
      h4c hp]
    rw [jsOr_of_ne _ _ (append_ne_empty_left _ _ (by decide))]

/-! ## Witnesses and counterexamples for the invoice-endpoint claims -/

/-- Witness for C1 at concrete requests and worlds. -/
theorem invoice_endpoint_failure_policy_witness :
    (((invoiceHandler envConfigured reqPost worldHappy).1.statusCode ≠ 200) ↔
      (reqPost.method ≠ "POST" ∨ requestFieldsOk reqPost = false)) ∧
    (invoiceHandler envConfigured reqGet worldHappy = (.methodNotAllowed, []) ∧
      InvoiceResponse.methodNotAllowed.statusCode = 405) ∧
    (invoiceHandler envConfigured reqNoBody worldHappy = (.badRequest, []) ∧
      InvoiceResponse.badRequest.statusCode = 400) ∧
    (invoiceHandler envUnconfigured reqPost worldHappy = (.demo, []) ∧
      InvoiceResponse.demo.statusCode = 200 ∧
      InvoiceResponse.demo.paymentUrl = some DEMO_PAYMENT_URL) ∧
    ((invoiceHandler envConfigured reqPost worldCustomerAppFails).1 =
        .fallback
          (jsOr (WError.mk "Create customer failed: email taken" none).message
            "Unknown error")
          (WError.mk "Create customer failed: email taken" none).waveErrors ∧
      (invoiceHandler envConfigured reqPost worldCustomerAppFails).1.statusCode = 200) ∧
    ((invoiceHandler envConfigured reqPost worldHappy).1.isLive = true ∧
      (invoiceHandler envConfigured reqPost worldHappy).1.statusCode = 200) :=
  invoice_endpoint_failure_policy
    envConfigured reqPost worldHappy
    envConfigured reqGet worldHappy
    envConfigured reqNoBody worldHappy
    envUnconfigured reqPost worldHappy cdAlice ⟨"core"⟩
    envConfigured reqPost worldCustomerAppFails cdAlice ⟨"core"⟩
    ⟨"Create customer failed: email taken", none⟩
    envConfigured reqPost worldHappy cdAlice ⟨"core"⟩
    (by decide) (by decide) (by decide)
    (by decide) (by decide) (by decide) (by decide) (by decide)
    (by decide) (by decide) (by decide) (by decide) (by decide) (by decide)
    (by decide) (by decide) (by decide) (by decide) (by decide) (by decide)

/-- Witness for C10: with nothing configured, a GET is still 405 and an empty
POST body is still 400 — never demo mode. -/
theorem validation_precedes_demo_witness :
    invoiceHandler envUnconfigured reqGet worldHappy = (.methodNotAllowed, []) ∧
    (invoiceHandler envUnconfigured reqGet worldHappy).1 ≠ .demo ∧
    (invoiceHandler envUnconfigured reqGet worldHappy).1.statusCode = 405 ∧
    invoiceHandler envUnconfigured reqNoBody worldHappy = (.badRequest, []) ∧
    (invoiceHandler envUnconfigured reqNoBody worldHappy).1 ≠ .demo ∧
    (invoiceHandler envUnconfigured reqNoBody worldHappy).1.statusCode = 400 :=
  validation_precedes_demo envUnconfigured reqGet reqNoBody worldHappy
    rfl rfl (by decide) rfl (by decide)

/-- Witness for C3: approval fails, sending succeeds, the response is live
with the sent URL. -/
theorem approval_failure_nonfatal_witness :
    (invoiceHandler envConfigured reqPost worldApproveFails).2 =
      [.customerCreate, .invoiceCreate, .invoiceApprove, .invoiceSend] ∧
    (invoiceHandler envConfigured reqPost worldApproveFails).1 =
      .live (CreateInvoiceOut.mk "inv-1" (some "https://wave.example/view")).invoiceId
        (match sendInvoice envConfigured.WAVE_API_KEY worldApproveFails.sendResp with
         | .ok (some u) => some u
         | .ok none => (CreateInvoiceOut.mk "inv-1" (some "https://wave.example/view")).viewUrl
         | .error _ => (CreateInvoiceOut.mk "inv-1" (some "https://wave.example/view")).viewUrl) ∧
    (invoiceHandler envConfigured reqPost worldApproveFails).1.isFallback = false :=
  approval_failure_nonfatal envConfigured reqPost worldApproveFails cdAlice ⟨"core"⟩
    "cust-1" (CreateInvoiceOut.mk "inv-1" (some "https://wave.example/view"))
    (by decide) (by decide) (by decide) (by decide) (by decide)
    (by decide) (by decide) (by decide)

/-- C5 counterexample: with a configured environment, a well-formed request
whose package key is outside the catalog still issues the customer-creation
call (the trace is exactly `[customerCreate]`) before failing with the fatal
input error — refuting the claim that the key is validated before the
customer-creation call is issued. -/
theorem unknown_package_key_counterexample :
    PACKAGE_CATALOG "platinum" = none ∧
    (invoiceHandler envConfigured reqPostUnknown worldHappy).2 =
      [WaveCall.customerCreate] ∧
    (invoiceHandler envConfigured reqPostUnknown worldHappy).1 =
      .fallback "Unknown package key" none := by
  decide

/-- Witness for the amended theorem of C5 at a concrete unknown key. -/
theorem unknown_package_key_after_customer_call_witness :
    invoiceHandler envConfigured reqPostUnknown worldHappy =
      (.fallback "Unknown package key" none, [.customerCreate]) :=
  unknown_package_key_after_customer_call envConfigured reqPostUnknown worldHappy
    cdAlice ⟨"platinum"⟩ "cust-1"
    (by decide) (by decide) (by decide) (by decide) (by decide) (by decide) (by decide)

/-- C6 counterexample: customer creation reports an application-level failure
with a non-empty field-level `inputErrors` list, yet the fallback response
carries `errorDetails = null` — refuting the claim that such failures preserve
the structured error list. -/
theorem input_errors_dropped_counterexample :
    customerAppFailResp.data =
      some ⟨false, some [⟨some "INVALID", "email taken"⟩], none⟩ ∧
    worldCustomerAppFails.customerResp = customerAppFailResp ∧
    (invoiceHandler envConfigured reqPost worldCustomerAppFails).1 =
      .fallback "Create customer failed: email taken" none := by
  decide

/-- Witness for the amended theorem of C6: a transport failure keeps the structured
errors, an application-level failure drops them. -/
theorem error_details_policy_witness :
    (invoiceHandler envConfigured reqPost worldCustomerTransportFails).1 =
      .fallback ("Wave GraphQL error: " ++ serializeErrors [⟨some "AUTH", "bad token"⟩])
        (some [⟨some "AUTH", "bad token"⟩]) ∧
    (invoiceHandler envConfigured reqPost worldCustomerAppFails).1 =
      .fallback ("Create customer failed: " ++ (WaveErr.mk (some "INVALID") "email taken").message)
        none ∧
    (invoiceHandler envConfigured reqPost worldInvoiceTransportFails).1 =
      .fallback ("Wave GraphQL error: " ++ serializeErrors [⟨some "AUTH", "bad token"⟩])
        (some [⟨some "AUTH", "bad token"⟩]) ∧
    (invoiceHandler envConfigured reqPost worldInvoiceAppFails).1 =
      .fallback ("Create invoice failed: " ++ (WaveErr.mk (some "PRICE") "bad unit price").message)
        none :=
  error_details_policy envConfigured reqPost worldCustomerTransportFails
    worldCustomerAppFails worldInvoiceTransportFails worldInvoiceAppFails
    cdAlice ⟨"core"⟩ [⟨some "AUTH", "bad token"⟩]
    ⟨false, some [⟨some "INVALID", "email taken"⟩], none⟩
    ⟨some "INVALID", "email taken"⟩ []
    "cust-1" "cust-1" [⟨some "AUTH", "bad token"⟩]
    ⟨"Core System Package", 5000⟩
    ⟨false, some [⟨some "PRICE", "bad unit price"⟩], none⟩
    ⟨some "PRICE", "bad unit price"⟩ []
    (by decide) (by decide) (by decide) (by decide) (by decide)
    (by decide) (by decide) (by decide) (by decide) (by decide) (by decide)
    (by simp [PACKAGE_CATALOG]) (by decide)
    (by decide) (by decide)
    (by decide) (by decide) (by decide) (by decide) (by decide) (by decide)

/-! ## Lemmas about the listing handlers -/

theorem toLowerStr_length (s : String) : (toLowerStr s).length = s.length := by
  cases s with
  | mk l => simp [toLowerStr, String.length]

theorem toLowerStr_ne_empty (s : String) (h : s ≠ "") : toLowerStr s ≠ "" := by
  intro hh
  apply h
  apply string_length_zero
  have hlen := congrArg String.length hh
  rw [toLowerStr_length] at hlen
  simpa using hlen

theorem listAccounts_success_count (env : Env) (resp : WaveResp AccountsData)
    (bid bname : String) (cnt : Nat) (accs : List AccountNode)
    (h : listAccountsHandler env resp = .success bid bname cnt accs) :
    cnt = accs.length := by
  unfold listAccountsHandler at h
  split at h
  · simp at h
  · split at h
    · simp at h
    · split at h
      · simp at h
      · simp only [ListAccountsResponse.success.injEq] at h
        obtain ⟨_, _, h3, h4⟩ := h
        subst h3
        subst h4
        simp [List.length_map]

theorem listProducts_success_count (env : Env) (q : Option String)
    (resp : WaveResp ProductsData) (bid bname : String) (cnt : Nat)
    (prods : List ProductNode)
    (h : listProductsHandler env q resp = .success bid bname cnt prods) :
    cnt = prods.length := by
  unfold listProductsHandler at h
  split at h
  · simp at h
  · split at h
    · simp at h
    · split at h
      · simp at h
      · simp only [ListProductsResponse.success.injEq] at h
        obtain ⟨_, _, h3, h4⟩ := h
        subst h3
        subst h4
        rfl

theorem listProducts_success_filter (env : Env) (q : String)
    (resp : WaveResp ProductsData) (bid bname : String) (cnt : Nat)
    (prods : List ProductNode) (hq : q ≠ "")
    (h : listProductsHandler env (some q) resp = .success bid bname cnt prods) :
    prods = (productNodes resp.data).filter (nameMatchesCI q) := by
  unfold listProductsHandler at h
  split at h
  · simp at h
  · split at h
    · simp at h
    · split at h
      · simp at h
      · rename_i hbz xe d heqd xb b heqb
        have hd : d = resp.data := waveQuery_ok_data heqd
        subst hd
        have hne := toLowerStr_ne_empty q hq
        simp [hq, hne, ListProductsResponse.success.injEq] at h
        rw [← h.2.2.2]
        simp only [productNodes, heqb]
        rfl

/-! ## C7: error reporting of the listing and diagnostic handlers (corrected) -/

/-- C7 counterexample: the business-discovery handler reports a missing API
key — a configuration failure — with HTTP status 500, not 200, refuting the
claim that every failure of the listing and diagnostic handlers is reported
as a 200 response. -/
theorem business_discovery_500_counterexample :
    envUnconfigured.WAVE_API_KEY = "" ∧
    businessDiscoveryHandler envUnconfigured businessesOkResp =
      .errorResp "Missing WAVE_API_KEY" ∧
    (businessDiscoveryHandler envUnconfigured businessesOkResp).statusCode = 500 := by
  decide

/-- C7 amended: the list-accounts and list-products handlers report every
outcome — including missing configuration and failed external calls — with
HTTP status 200 (failures as an error-field response), while the
business-discovery handler reports failures with HTTP status 500 and an error
field. -/
theorem listing_error_status_policy
    (env : Env) (respA : WaveResp AccountsData) (q : Option String)
    (respP : WaveResp ProductsData) (respB2 : WaveResp BusinessesData)
    (envM : Env) (respA2 : WaveResp AccountsData) (q2 : Option String)
    (respP2 : WaveResp ProductsData)
    (envK : Env) (respB : WaveResp BusinessesData)
    (hb : envM.WAVE_BUSINESS_ID = "") (hk : envK.WAVE_API_KEY = "") :
    (listAccountsHandler env respA).statusCode = 200 ∧
    (listProductsHandler env q respP).statusCode = 200 ∧
    listAccountsHandler envM respA2 = .errorResp "Missing WAVE_BUSINESS_ID" ∧
    listProductsHandler envM q2 respP2 = .errorResp "Missing WAVE_BUSINESS_ID" ∧
    businessDiscoveryHandler envK respB = .errorResp "Missing WAVE_API_KEY" ∧
    (businessDiscoveryHandler envK respB).statusCode = 500 ∧
    ((businessDiscoveryHandler env respB2).statusCode =
      if (businessDiscoveryHandler env respB2).isError then 500 else 200) := by
  refine ⟨rfl, rfl, ?_, ?_, ?_, ?_, ?_⟩
  · simp [listAccountsHandler, hb, jsOr]
  · simp [listProductsHandler, hb, jsOr]
  · simp [businessDiscoveryHandler, waveQuery, hk]
  · simp [businessDiscoveryHandler, waveQuery, hk, DiscoveryResponse.statusCode]
  · rcases hres : businessDiscoveryHandler env respB2 with m | bs <;> rfl

/-- Witness for the amended theorem of C7 at concrete inputs. -/
theorem listing_error_status_policy_witness :
    (listAccountsHandler envConfigured accountsOkResp).statusCode = 200 ∧
    (listProductsHandler envConfigured (some "core") productsOkResp).statusCode = 200 ∧
    listAccountsHandler envUnconfigured accountsOkResp =
      .errorResp "Missing WAVE_BUSINESS_ID" ∧
    listProductsHandler envUnconfigured none productsOkResp =
      .errorResp "Missing WAVE_BUSINESS_ID" ∧
    businessDiscoveryHandler envUnconfigured businessesOkResp =
      .errorResp "Missing WAVE_API_KEY" ∧
    (businessDiscoveryHandler envUnconfigured businessesOkResp).statusCode = 500 ∧
    ((businessDiscoveryHandler envConfigured businessesOkResp).statusCode =
      if (businessDiscoveryHandler envConfigured businessesOkResp).isError
      then 500 else 200) :=
  listing_error_status_policy envConfigured accountsOkResp (some "core")
    productsOkResp businessesOkResp envUnconfigured accountsOkResp none
    productsOkResp envUnconfigured businessesOkResp rfl rfl

/-! ## C9: counts and filtering of the listing endpoints -/

/-- C9: every successful listing response reports `count` equal to the length
of the returned list, and a products listing with a non-empty query string
returns exactly the products whose name contains the query as a
case-insensitive substring. -/
theorem listing_count_and_filter
    (env : Env) (respA : WaveResp AccountsData) (bid bname : String) (cnt : Nat)
    (accs : List AccountNode)
    (hA : listAccountsHandler env respA = .success bid bname cnt accs)
    (envP : Env) (qO : Option String) (respP : WaveResp ProductsData)
    (bid0 bname0 : String) (cnt0 : Nat) (prods0 : List ProductNode)
    (hP0 : listProductsHandler envP qO respP = .success bid0 bname0 cnt0 prods0)
    (envQ : Env) (q : String) (respQ : WaveResp ProductsData)
    (bid2 bname2 : String) (cnt2 : Nat) (prods2 : List ProductNode)
    (hq : q ≠ "")
    (hP : listProductsHandler envQ (some q) respQ = .success bid2 bname2 cnt2 prods2) :
    cnt = accs.length ∧
    cnt0 = prods0.length ∧
    cnt2 = prods2.length ∧
    prods2 = (productNodes respQ.data).filter (nameMatchesCI q) :=
  ⟨listAccounts_success_count env respA bid bname cnt accs hA,
   listProducts_success_count envP qO respP bid0 bname0 cnt0 prods0 hP0,
   listProducts_success_count envQ (some q) respQ bid2 bname2 cnt2 prods2 hP,
   listProducts_success_filter envQ q respQ bid2 bname2 cnt2 prods2 hq hP⟩

/-- Witness for C9: a concrete accounts listing and a products listing
filtered by `"CORE"`. -/
theorem listing_count_and_filter_witness :
    (1 : Nat) = [AccountNode.mk "acc-1" "Sales" "INCOME" "INCOME"].length ∧
    (2 : Nat) = [ProductNode.mk "p-1" (some "Core System Package"),
      ProductNode.mk "p-2" (some "Other Thing")].length ∧
    (1 : Nat) = [ProductNode.mk "p-1" (some "Core System Package")].length ∧
    [ProductNode.mk "p-1" (some "Core System Package")] =
      (productNodes productsOkResp.data).filter (nameMatchesCI "CORE") :=
  listing_count_and_filter
    envConfigured accountsOkResp "biz-1" "Biz" 1
    [AccountNode.mk "acc-1" "Sales" "INCOME" "INCOME"] (by decide)
    envConfigured none productsOkResp "biz-1" "Biz" 2
    [ProductNode.mk "p-1" (some "Core System Package"),
      ProductNode.mk "p-2" (some "Other Thing")] (by decide)
    envConfigured "CORE" productsOkResp "biz-1" "Biz" 1
    [ProductNode.mk "p-1" (some "Core System Package")] (by decide) (by decide)

end Nicky
